import Mathlib

/-
  Verification of the `AutoEncoderCV` tutorial class from
  docs/notebooks/tutorials/adv_newcv_scratch.ipynb (mlcolvar).

  The notebook defines a CV model class with three blocks
  (norm_in, encoder, decoder), a constructor that parses an options
  dictionary, two forward paths (forward_cv and encode_decode), and a
  training_step callback.  We embed that class shallowly: Python dict
  values become an inductive `PyVal`, fallible Python execution becomes
  `Except CVError`, and the external tensor math (Normalization forward
  and inverse, FeedForward evaluation, the MSE loss) is abstracted by a
  semantics record `BlockSem` and a loss-function parameter, since those
  modules live outside this file of the repository.
-/

/-- Errors raised by the embedded Python code.  `indexError` models the
IndexError from indexing an empty list, `typeError` the TypeError from
unpacking a non-mapping with the double-star operator,
`configurationError` and `missingKeyError` are the spec's error
taxonomy (ConfigurationError, MissingKeyError). -/
inductive CVError where
  | indexError
  | configurationError
  | typeError
  | missingKeyError (key : String)
deriving Repr, DecidableEq

/-- A shallow embedding of the Python values that can appear as an entry
of the `options` dictionary: `None`, booleans, integers, strings, or a
nested keyword dictionary. -/
inductive PyVal where
  | pyNone
  | pyBool (b : Bool)
  | pyInt (n : Int)
  | pyStr (s : String)
  | pyDict (entries : List (String × PyVal))

/-- Association-list lookup, mirroring Python dict indexing for string
keys (`d[k]` returning the first binding, `none` when absent). -/
def dictGet {α : Type} (d : List (String × α)) (k : String) : Option α :=
  match d with
  | [] => none
  | (k₁, v) :: rest => if k₁ = k then some v else dictGet rest k

/-- The class constant `BLOCKS = ['norm_in','encoder','decoder']`. -/
def BLOCKS : List String := ["norm_in", "encoder", "decoder"]

/-- Keys accepted in the `options` dictionary: the block names plus
`optimizer` (the notebook's test passes an `optimizer` entry). -/
def validOptionKeys : List String := ["norm_in", "encoder", "decoder", "optimizer"]

/-- Modelled from the spec: `BaseCV.parse_options` is defined in the
library, not in the notebook source.  Per the spec it sanitizes the
options mapping — an entry referencing an unknown block/option name
fails with ConfigurationError — and fills missing block entries with an
empty configuration (all defaults). -/
def parse_options (options : Option (List (String × PyVal))) :
    Except CVError (List (String × PyVal)) :=
  let opts := options.getD []
  if opts.all (fun kv => validOptionKeys.contains kv.1) then
    .ok (BLOCKS.map (fun b => (b, (dictGet opts b).getD (PyVal.pyDict []))))
  else .error .configurationError

/-- Look up a block's entry in the parsed options; `parse_options`
always fills every block key, the default is the empty kwargs dict. -/
def optGet (opts : List (String × PyVal)) (o : String) : PyVal :=
  (dictGet opts o).getD (PyVal.pyDict [])

/-- The condition `(options[o] is not False) and (options[o] is not None)`
from the constructor, negated: exactly the identity sentinels `False`
and `None` disable the `norm_in` block. -/
def isDisabledSentinel : PyVal → Bool
  | .pyBool false => true
  | .pyNone => true
  | _ => false

/-- Unpacking a value as keyword arguments (`**options[o]`): only a
mapping is accepted, anything else raises TypeError in Python. -/
def asKwargs : PyVal → Except CVError (List (String × PyVal))
  | .pyDict d => .ok d
  | _ => .error .typeError

/-- The `Normalization` sub-module as constructed by the notebook:
`Normalization(self.in_features, **options['norm_in'])`.  Its tensor
behaviour (forward and inverse transforms) is external; we record its
construction arguments. -/
structure Normalization where
  in_features : Int
  opts : List (String × PyVal)

/-- The `FeedForward` sub-module as constructed by the notebook:
`FeedForward(layers, **options[o])`.  Its tensor behaviour is external;
we record its construction arguments. -/
structure FeedForward where
  layers : List Int
  opts : List (String × PyVal)

/-- The constructed `AutoEncoderCV` model: in/out feature counts from
the first/last encoder widths, an optional `norm_in` block (unbound
when disabled), and the encoder and decoder blocks.  The loss function
is always `MSELoss` and is passed separately at training time. -/
structure AutoEncoderCV where
  in_features : Int
  out_features : Int
  norm_in : Option Normalization
  encoder : FeedForward
  decoder : FeedForward

/-- Construction of the `norm_in` block:
`if (options[o] is not False) and (options[o] is not None):
self.norm_in = Normalization(self.in_features, **options[o])`.
When the sentinel disables the block the attribute stays unbound. -/
def buildNorm (in_features : Int) (v : PyVal) :
    Except CVError (Option Normalization) :=
  if isDisabledSentinel v then .ok none
  else match asKwargs v with
    | .ok d => .ok (some ⟨in_features, d⟩)
    | .error e => .error e

/-- The `AutoEncoderCV.__init__` method of the notebook.
Order of the Python source: `super().__init__(in_features=
encoder_layers[0], out_features=encoder_layers[-1])` — an empty width
list raises IndexError here — then `options = self.parse_options(options)`,
then `if decoder_layers is None: decoder_layers = encoder_layers[::-1]`,
then `self.loss_fn = MSELoss()`, then the three blocks:
`norm_in` guarded by the disable sentinel, and
`self.encoder = FeedForward(encoder_layers, **options['encoder'])`,
`self.decoder = FeedForward(decoder_layers, **options['decoder'])`
unconditionally. -/
def AutoEncoderCV.init (encoder_layers : List Int)
    (decoder_layers : Option (List Int))
    (options : Option (List (String × PyVal))) :
    Except CVError AutoEncoderCV :=
  match encoder_layers with
  | [] => .error .indexError
  | a :: rest =>
    match parse_options options with
    | .error e => .error e
    | .ok opts =>
      let dec_layers := decoder_layers.getD (a :: rest).reverse
      match buildNorm a (optGet opts "norm_in") with
      | .error e => .error e
      | .ok norm_in =>
        match asKwargs (optGet opts "encoder") with
        | .error e => .error e
        | .ok kwE =>
          match asKwargs (optGet opts "decoder") with
          | .error e => .error e
          | .ok kwD =>
            .ok { in_features := a, out_features := rest.getLastD a,
                  norm_in := norm_in,
                  encoder := ⟨a :: rest, kwE⟩,
                  decoder := ⟨dec_layers, kwD⟩ }

/-- The external tensor semantics of the blocks, abstracted: the
`Normalization` forward and inverse transforms and the `FeedForward`
evaluation are implemented by the library core, outside this notebook,
so the forward-path theorems are stated for every such semantics. -/
structure BlockSem (T : Type) where
  normForward : Normalization → T → T
  normInverse : Normalization → T → T
  ffForward : FeedForward → T → T

/-- The notebook's `forward_cv`:
`if self.norm_in is not None: x = self.norm_in(x)`, then
`x = self.encoder(x)`. -/
def forward_cv {T : Type} (sem : BlockSem T) (m : AutoEncoderCV) (x : T) : T :=
  let x₁ := match m.norm_in with
    | some n => sem.normForward n x
    | none => x
  sem.ffForward m.encoder x₁

/-- Modelled from the spec: `BaseCV.forward` is defined in the library,
not in the notebook source; per the notebook it equals `forward_cv` plus
pre/post-processing operations when present, and the model constructed
here has none, so `forward` coincides with `forward_cv`. -/
def forward {T : Type} (sem : BlockSem T) (m : AutoEncoderCV) (x : T) : T :=
  forward_cv sem m x

/-- The notebook's `encode_decode`: `x = self.forward(x)`,
`x = self.decoder(x)`, then
`if self.norm_in is not None: x = self.norm_in.inverse(x)`. -/
def encode_decode {T : Type} (sem : BlockSem T) (m : AutoEncoderCV) (x : T) : T :=
  let x₁ := forward sem m x
  let x₂ := sem.ffForward m.decoder x₁
  match m.norm_in with
  | some n => sem.normInverse n x₂
  | none => x₂

/-- The observable outcome of one training step: the scalar loss
returned to the caller and the list of named metrics emitted through
`self.log`, in order. -/
structure StepOut (L : Type) where
  loss : L
  logged : List (String × L)

/-- The notebook's `training_step`.  `train_batch['data']` raises a
missing-key error when the key is absent — before any forward
computation or logging, which is modelled by the `Except` result
carrying the log list: an error result emits no metric.  The loss
callable (`MSELoss`) is external and abstracted as `loss_fn`, applied
to the reconstruction, the reference (`'target'` if present, else the
input `'data'`), and the optional `'weights'` entry. -/
def training_step {T L : Type} (sem : BlockSem T)
    (loss_fn : T → T → Option T → L) (m : AutoEncoderCV) (training : Bool)
    (train_batch : List (String × T)) (batch_idx : Nat) :
    Except CVError (StepOut L) :=
  match dictGet train_batch "data" with
  | none => .error (.missingKeyError "data")
  | some x =>
    let weights := dictGet train_batch "weights"
    let x_hat := encode_decode sem m x
    let x_ref := match dictGet train_batch "target" with
      | some t => t
      | none => x
    let loss := loss_fn x_hat x_ref weights
    let name := if training then "train" else "valid"
    .ok { loss := loss, logged := [(name ++ "_loss", loss)] }

/-- A concrete integer semantics for the blocks, used by the witnesses:
each block acts by simple arithmetic so both sides of the forward-path
equations evaluate. -/
def semInt : BlockSem Int :=
  { normForward := fun n x => x + n.in_features
    normInverse := fun n x => x - n.in_features
    ffForward := fun f x => 2 * x + (f.layers.length : Int) }

/-- A concrete loss callable for the witnesses, injective enough to
expose all three of its arguments. -/
def lossInt : Int → Int → Option Int → Int :=
  fun x_hat x_ref w => 1000 * x_hat + 10 * x_ref + w.getD 7

/-- The model constructed from widths `[2,1]` with
`options = {'norm_in': None}`: the normalizer is disabled. -/
def mDisabled : AutoEncoderCV :=
  { in_features := 2, out_features := 1, norm_in := none,
    encoder := ⟨[2, 1], []⟩, decoder := ⟨[1, 2], []⟩ }

/-- The model constructed from widths `[2,1]` with a `norm_in` entry
that is a dictionary: the normalizer is bound. -/
def mWithNorm : AutoEncoderCV :=
  { in_features := 2, out_features := 1, norm_in := some ⟨2, []⟩,
    encoder := ⟨[2, 1], []⟩, decoder := ⟨[1, 2], []⟩ }

/-- The model silently constructed from the single-entry width list
`[5]` with default options: in and out features both 5, a default
normalizer, and encoder and decoder each built from the width list
`[5]`. -/
def mSingle : AutoEncoderCV :=
  { in_features := 5, out_features := 5, norm_in := some ⟨5, []⟩,
    encoder := ⟨[5], []⟩, decoder := ⟨[5], []⟩ }

/-- Helper: constructing from a nonempty width list with
`options = {'norm_in': v}` for a disable sentinel `v` succeeds and
leaves `norm_in` unbound. -/
theorem init_norm_in_disabled (a : Int) (rest : List Int)
    (dl : Option (List Int)) (v : PyVal)
    (hv : isDisabledSentinel v = true) :
    AutoEncoderCV.init (a :: rest) dl (some [("norm_in", v)]) =
      .ok { in_features := a, out_features := rest.getLastD a,
            norm_in := none, encoder := ⟨a :: rest, []⟩,
            decoder := ⟨dl.getD (a :: rest).reverse, []⟩ } := by
  cases v with
  | pyNone => rfl
  | pyBool b =>
    cases b with
    | false => rfl
    | true => simp [isDisabledSentinel] at hv
  | pyInt n => simp [isDisabledSentinel] at hv
  | pyStr s => simp [isDisabledSentinel] at hv
  | pyDict d => simp [isDisabledSentinel] at hv

/-- C1: for every encoder width list of length ≥ 2, construction with
no decoder widths succeeds and the decoder widths are the exact reverse
of the encoder widths. -/
theorem default_decoder_reverse (ls : List Int) (h : 2 ≤ ls.length) :
    ∃ m, AutoEncoderCV.init ls none none = .ok m ∧
      m.decoder.layers = ls.reverse := by
  match ls, h with
  | a :: rest, _ => exact ⟨_, rfl, rfl⟩

/-- C1 witness: the spec's scenario, widths `[8,6,4,2]` resolve the
decoder widths to `[2,4,6,8]`. -/
theorem default_decoder_reverse_witness :
    2 ≤ ([8, 6, 4, 2] : List Int).length ∧
    ∃ m, AutoEncoderCV.init [8, 6, 4, 2] none none = .ok m ∧
      m.decoder.layers = [2, 4, 6, 8] :=
  ⟨by decide, default_decoder_reverse [8, 6, 4, 2] (by decide)⟩

/-- C3 counterexample: the single-entry width list `[5]` (fewer than 2
entries) does not fail with ConfigurationError — construction succeeds
silently, yielding a model with in and out features both 5. -/
theorem short_widths_counterexample :
    AutoEncoderCV.init [5] none none = .ok mSingle ∧
    AutoEncoderCV.init [5] none none ≠ .error .configurationError :=
  ⟨rfl, fun h => nomatch h⟩

/-- C3 amended: for an empty encoder width list, construction fails
with an index error (from `encoder_layers[0]`), not ConfigurationError;
for a single-entry width list `[n]`, construction succeeds silently
with in and out features both equal to `n`. -/
theorem short_widths_behavior :
    (∀ (dl : Option (List Int)) (opts : Option (List (String × PyVal))),
      AutoEncoderCV.init [] dl opts = .error .indexError) ∧
    (∀ n : Int, AutoEncoderCV.init [n] none none =
      .ok { in_features := n, out_features := n, norm_in := some ⟨n, []⟩,
            encoder := ⟨[n], []⟩, decoder := ⟨[n], []⟩ }) :=
  ⟨fun _ _ => rfl, fun _ => rfl⟩

/-- C4 counterexample: the empty mapping is a falsy Python value, yet
binding it to `norm_in` does not suppress the block — the normalizer is
constructed with default options. -/
theorem falsy_empty_dict_counterexample :
    AutoEncoderCV.init [2, 1] none (some [("norm_in", PyVal.pyDict [])]) =
      .ok mWithNorm ∧ mWithNorm.norm_in.isSome = true :=
  ⟨rfl, rfl⟩

/-- C4 amended: a value bound to `norm_in` suppresses the block exactly
when it is the sentinel `None` or `False`; any mapping value — even the
falsy empty mapping — constructs the block with that mapping as its
options, and any other value (such as `0` or `True`) fails with a type
error when unpacked as keyword arguments. -/
theorem norm_in_block_construction (a : Int) (rest : List Int) (v : PyVal) :
    AutoEncoderCV.init (a :: rest) none (some [("norm_in", v)]) =
      match v with
      | .pyNone =>
        .ok { in_features := a, out_features := rest.getLastD a,
              norm_in := none, encoder := ⟨a :: rest, []⟩,
              decoder := ⟨(a :: rest).reverse, []⟩ }
      | .pyBool false =>
        .ok { in_features := a, out_features := rest.getLastD a,
              norm_in := none, encoder := ⟨a :: rest, []⟩,
              decoder := ⟨(a :: rest).reverse, []⟩ }
      | .pyDict d =>
        .ok { in_features := a, out_features := rest.getLastD a,
              norm_in := some ⟨a, d⟩, encoder := ⟨a :: rest, []⟩,
              decoder := ⟨(a :: rest).reverse, []⟩ }
      | _ => .error .typeError := by
  cases v with
  | pyNone => rfl
  | pyBool b => cases b <;> rfl
  | pyInt n => rfl
  | pyStr s => rfl
  | pyDict d => rfl

/-- C5 counterexample: setting the `encoder` entry to the disabled
sentinel `None` does not leave the encoder role unbound in a
constructed model — construction fails with a type error (`**None`). -/
theorem encoder_sentinel_counterexample :
    AutoEncoderCV.init [2, 1] none (some [("encoder", PyVal.pyNone)]) =
      .error .typeError := rfl

/-- C5 amended: only the `norm_in` role honors the disabled sentinel
(`None`/`False`), yielding a model with that role unbound; for the
`encoder` and `decoder` roles the same sentinel makes construction fail
with a type error instead of suppressing the block. -/
theorem disabled_sentinel_per_role (v : PyVal)
    (hv : isDisabledSentinel v = true) :
    AutoEncoderCV.init [2, 1] none (some [("norm_in", v)]) = .ok mDisabled ∧
    AutoEncoderCV.init [2, 1] none (some [("encoder", v)]) =
      .error .typeError ∧
    AutoEncoderCV.init [2, 1] none (some [("decoder", v)]) =
      .error .typeError := by
  cases v with
  | pyNone => exact ⟨rfl, rfl, rfl⟩
  | pyBool b =>
    cases b with
    | false => exact ⟨rfl, rfl, rfl⟩
    | true => simp [isDisabledSentinel] at hv
  | pyInt n => simp [isDisabledSentinel] at hv
  | pyStr s => simp [isDisabledSentinel] at hv
  | pyDict d => simp [isDisabledSentinel] at hv

/-- C5 witness: the amended statement at the concrete sentinel `None`. -/
theorem disabled_sentinel_per_role_witness :
    isDisabledSentinel PyVal.pyNone = true ∧
    (AutoEncoderCV.init [2, 1] none (some [("norm_in", PyVal.pyNone)]) =
        .ok mDisabled ∧
      AutoEncoderCV.init [2, 1] none (some [("encoder", PyVal.pyNone)]) =
        .error .typeError ∧
      AutoEncoderCV.init [2, 1] none (some [("decoder", PyVal.pyNone)]) =
        .error .typeError) :=
  ⟨rfl, disabled_sentinel_per_role PyVal.pyNone rfl⟩

/-- C6: for every model constructed with the normalizer disabled
(`norm_in` bound to `None` or `False`) and every input and block
semantics, `forward_cv` (the project path) equals applying the encoder
alone to the raw input. -/
theorem project_encoder_alone {T : Type} (sem : BlockSem T) (ls : List Int)
    (v : PyVal) (hv : isDisabledSentinel v = true) (m : AutoEncoderCV)
    (hm : AutoEncoderCV.init ls none (some [("norm_in", v)]) = .ok m)
    (x : T) :
    forward_cv sem m x = sem.ffForward m.encoder x := by
  cases ls with
  | nil => simp [AutoEncoderCV.init] at hm
  | cons a rest =>
    rw [init_norm_in_disabled a rest none v hv] at hm
    obtain rfl := Except.ok.inj hm
    rfl

/-- C6 witness: widths `[2,1]`, `norm_in` disabled with `None`, the
integer semantics, input 5. -/
theorem project_encoder_alone_witness :
    isDisabledSentinel PyVal.pyNone = true ∧
    AutoEncoderCV.init [2, 1] none (some [("norm_in", PyVal.pyNone)]) =
      .ok mDisabled ∧
    forward_cv semInt mDisabled 5 = semInt.ffForward mDisabled.encoder 5 :=
  ⟨rfl, rfl,
    project_encoder_alone semInt [2, 1] PyVal.pyNone rfl mDisabled rfl 5⟩

/-- C7: for every model whose normalizer is present and every input,
`encode_decode` (the reconstruction path) is exactly the four-stage
pipeline: normalizer forward, encoder, decoder, normalizer inverse. -/
theorem reconstruct_with_normalizer {T : Type} (sem : BlockSem T)
    (m : AutoEncoderCV) (n : Normalization) (h : m.norm_in = some n)
    (x : T) :
    encode_decode sem m x =
      sem.normInverse n (sem.ffForward m.decoder
        (sem.ffForward m.encoder (sem.normForward n x))) := by
  simp [encode_decode, forward, forward_cv, h]

/-- C7 witness: the model with a bound normalizer, the integer
semantics, input 3. -/
theorem reconstruct_with_normalizer_witness :
    mWithNorm.norm_in = some ⟨2, []⟩ ∧
    encode_decode semInt mWithNorm 3 =
      semInt.normInverse ⟨2, []⟩ (semInt.ffForward mWithNorm.decoder
        (semInt.ffForward mWithNorm.encoder
          (semInt.normForward ⟨2, []⟩ 3))) :=
  ⟨rfl, reconstruct_with_normalizer semInt mWithNorm ⟨2, []⟩ rfl 3⟩

/-- C10: for every model constructed with the normalizer disabled and
every input, `encode_decode` equals decoder after encoder on the raw
input, with no inverse-normalization step. -/
theorem reconstruct_normalizer_disabled {T : Type} (sem : BlockSem T)
    (ls : List Int) (v : PyVal) (hv : isDisabledSentinel v = true)
    (m : AutoEncoderCV)
    (hm : AutoEncoderCV.init ls none (some [("norm_in", v)]) = .ok m)
    (x : T) :
    encode_decode sem m x =
      sem.ffForward m.decoder (sem.ffForward m.encoder x) := by
  cases ls with
  | nil => simp [AutoEncoderCV.init] at hm
  | cons a rest =>
    rw [init_norm_in_disabled a rest none v hv] at hm
    obtain rfl := Except.ok.inj hm
    rfl

/-- C10 witness: widths `[2,1]`, `norm_in` disabled with `False`, the
integer semantics, input 4. -/
theorem reconstruct_normalizer_disabled_witness :
    isDisabledSentinel (PyVal.pyBool false) = true ∧
    AutoEncoderCV.init [2, 1] none
        (some [("norm_in", PyVal.pyBool false)]) = .ok mDisabled ∧
    encode_decode semInt mDisabled 4 =
      semInt.ffForward mDisabled.decoder
        (semInt.ffForward mDisabled.encoder 4) :=
  ⟨rfl, rfl,
    reconstruct_normalizer_disabled semInt [2, 1] (PyVal.pyBool false) rfl
      mDisabled rfl 4⟩

/-- Helper: the full result of a successful training step — the loss is
the loss callable applied to the reconstruction, the reference
(`target` entry if present, else the `data` entry), and the optional
`weights` entry, and exactly that loss is logged once under the
mode-dependent name. -/
theorem training_step_eq {T L : Type} (sem : BlockSem T)
    (loss_fn : T → T → Option T → L) (m : AutoEncoderCV) (training : Bool)
    (batch : List (String × T)) (i : Nat) (x : T)
    (h : dictGet batch "data" = some x) :
    training_step sem loss_fn m training batch i =
      .ok { loss := loss_fn (encode_decode sem m x)
              ((dictGet batch "target").getD x) (dictGet batch "weights"),
            logged := [((if training then "train" else "valid") ++ "_loss",
              loss_fn (encode_decode sem m x)
                ((dictGet batch "target").getD x)
                (dictGet batch "weights"))] } := by
  cases ht : dictGet batch "target" <;> simp [training_step, h, ht]

/-- C2: for every batch containing `data`, the training step succeeds
and its loss is computed against the reference `target` when that key
is present and against `data` itself otherwise. -/
theorem training_step_reference {T L : Type} (sem : BlockSem T)
    (loss_fn : T → T → Option T → L) (m : AutoEncoderCV) (training : Bool)
    (batch : List (String × T)) (i : Nat) (x : T)
    (h : dictGet batch "data" = some x) :
    ∃ out, training_step sem loss_fn m training batch i = .ok out ∧
      out.loss = loss_fn (encode_decode sem m x)
        ((dictGet batch "target").getD x) (dictGet batch "weights") :=
  ⟨_, training_step_eq sem loss_fn m training batch i x h, rfl⟩

/-- C2 witness: a batch with both `data` and `target`, the integer
semantics and loss. -/
theorem training_step_reference_witness :
    dictGet [("data", (3 : Int)), ("target", 4)] "data" = some 3 ∧
    ∃ out, training_step semInt lossInt mDisabled true
        [("data", (3 : Int)), ("target", 4)] 0 = .ok out ∧
      out.loss = lossInt (encode_decode semInt mDisabled 3)
        ((dictGet [("data", (3 : Int)), ("target", 4)] "target").getD 3)
        (dictGet [("data", (3 : Int)), ("target", 4)] "weights") :=
  ⟨rfl, training_step_reference semInt lossInt mDisabled true
    [("data", (3 : Int)), ("target", 4)] 0 3 rfl⟩

/-- C8: for every batch lacking the key `data`, the training step fails
with the missing-key error for `data`; the error result carries no
`StepOut`, so no forward computation result and no metric is emitted. -/
theorem training_step_missing_data {T L : Type} (sem : BlockSem T)
    (loss_fn : T → T → Option T → L) (m : AutoEncoderCV) (training : Bool)
    (batch : List (String × T)) (i : Nat)
    (h : dictGet batch "data" = none) :
    training_step sem loss_fn m training batch i =
      .error (.missingKeyError "data") := by
  simp [training_step, h]

/-- C8 witness: the empty batch. -/
theorem training_step_missing_data_witness :
    dictGet ([] : List (String × Int)) "data" = none ∧
    training_step semInt lossInt mDisabled true ([] : List (String × Int))
      0 = .error (.missingKeyError "data") :=
  ⟨rfl, training_step_missing_data semInt lossInt mDisabled true [] 0 rfl⟩

/-- C9: for every batch containing `data`, the training step succeeds,
emits exactly one named metric — `train_loss` in training mode,
`valid_loss` in evaluation mode — and the logged value is the very loss
returned to the caller. -/
theorem training_step_single_metric {T L : Type} (sem : BlockSem T)
    (loss_fn : T → T → Option T → L) (m : AutoEncoderCV) (training : Bool)
    (batch : List (String × T)) (i : Nat) (x : T)
    (h : dictGet batch "data" = some x) :
    ∃ out, training_step sem loss_fn m training batch i = .ok out ∧
      out.logged =
        [(if training then "train_loss" else "valid_loss", out.loss)] := by
  refine ⟨_, training_step_eq sem loss_fn m training batch i x h, ?_⟩
  cases training <;> rfl

/-- C9 witness: a batch with only `data`, evaluation mode, so the one
metric is `valid_loss`. -/
theorem training_step_single_metric_witness :
    dictGet [("data", (2 : Int))] "data" = some 2 ∧
    ∃ out, training_step semInt lossInt mWithNorm false
        [("data", (2 : Int))] 0 = .ok out ∧
      out.logged = [(if false then "train_loss" else "valid_loss",
        out.loss)] :=
  ⟨rfl, training_step_single_metric semInt lossInt mWithNorm false
    [("data", (2 : Int))] 0 2 rfl⟩
